import Mathlib

/-!
Verification of `nextcloudappstore/certificate/validator.py`.

The validator is a thin wrapper around external cryptographic primitives
(pyOpenSSL's `load_certificate`, `load_crl`, `verify`,
`X509StoreContext.verify_certificate`, the `pem` splitter and `b64decode`).
Those externals are modelled here as executable Lean functions over a
structured representation of certificates, CRLs and signatures; the five
functions of the source file (`_to_cert`, `validate_signature`,
`validate_certificate`, `get_cn`, `validate_app_id`) are translated
line by line over these models.
-/

/-- Parsed X.509 certificate, as produced by the external parser.
Fields are exactly the attributes the validator and the modelled path
validation consult: subject CN, serial number, validity period, the key
that signed the certificate, and its own public key. -/
structure Cert where
  subjectCN : String
  serial : Nat
  notBefore : Nat
  notAfter : Nat
  signedByKey : Nat
  pubKey : Nat
deriving DecidableEq, Repr

/-- Parsed certificate revocation list: the set of revoked serial numbers. -/
structure CRL where
  revokedSerials : List Nat
deriving DecidableEq, Repr

/-- Text handed to the external X.509 PEM parser: either a well-formed
PEM block denoting a certificate, or malformed text on which the parser
fails with a cause message. -/
inductive CertText where
  | wellFormed (c : Cert)
  | malformed (cause : String)
deriving DecidableEq, Repr

/-- Text handed to the external CRL parser. `empty` is the empty string
(falsy in Python); the other constructors are non-empty text that either
parses to a CRL or fails with a cause message. -/
inductive CrlText where
  | empty
  | wellFormed (c : CRL)
  | malformed (cause : String)
deriving DecidableEq, Repr

/-- Base64 signature text: either decodable to raw signature bytes or
malformed, in which case the decoder fails with a cause message. -/
inductive SigText where
  | wellFormed (bytes : List Nat)
  | malformed (cause : String)
deriving DecidableEq, Repr

/-- Modelled external primitive `OpenSSL.crypto.load_certificate`:
parses PEM text into a certificate or fails with the parser's cause. -/
def load_certificate : CertText → Except String Cert
  | .wellFormed c => .ok c
  | .malformed cause => .error cause

/-- Modelled external primitive `OpenSSL.crypto.load_crl`: parses PEM
text into a CRL or fails with the parser's cause (the empty string does
not contain a PEM block, so it fails too). -/
def load_crl : CrlText → Except String CRL
  | .empty => .error "no start line"
  | .wellFormed c => .ok c
  | .malformed cause => .error cause

/-- Modelled external primitive `base64.b64decode`: decodes the base64
signature string to raw bytes or fails with the decoder's cause. -/
def b64decode : SigText → Except String (List Nat)
  | .wellFormed bytes => .ok bytes
  | .malformed cause => .error cause

/-- Modelled signing primitive: the signature bytes the holder of
private key `key` produces over `data` with digest algorithm `digest`.
Kept abstractly injective in all three arguments by tupling them into
the byte list. -/
def signBytes (key : Nat) (digest : String) (data : List Nat) : List Nat :=
  key :: digest.length :: (digest.toList.map Char.toNat) ++ data

/-- Modelled external primitive `OpenSSL.crypto.verify`: checks a
detached signature over `data` using only the certificate's public key
and the digest algorithm, per the library contract. -/
def cryptoVerify (cert : Cert) (sigBytes data : List Nat) (digest : String) :
    Except String Unit :=
  if sigBytes = signBytes cert.pubKey digest data then .ok ()
  else .error "bad signature"

/-- Modelled `OpenSSL.crypto.X509Store`: the trust anchors added so far,
the CRLs added so far, and whether the `CRL_CHECK` flag has been set. -/
structure X509Store where
  certs : List Cert
  crls : List CRL
  crlCheckFlag : Bool
deriving DecidableEq, Repr

/-- `X509Store()`: a fresh store with no anchors, no CRLs, no flags. -/
def X509Store.new : X509Store := ⟨[], [], false⟩

/-- `store.add_cert(c)`. -/
def X509Store.add_cert (s : X509Store) (c : Cert) : X509Store :=
  { s with certs := s.certs ++ [c] }

/-- `store.set_flags(X509StoreFlags.CRL_CHECK)`. -/
def X509Store.set_flags_crl_check (s : X509Store) : X509Store :=
  { s with crlCheckFlag := true }

/-- `store.add_crl(c)`. -/
def X509Store.add_crl (s : X509Store) (c : CRL) : X509Store :=
  { s with crls := s.crls ++ [c] }

/-- Modelled external primitive `X509StoreContext.verify_certificate`:
standard X.509 path validation at evaluation time `now` — validity
period, signature chaining to a trust anchor in the store, and
revocation checking only when the `CRL_CHECK` flag is set. -/
def verify_certificate (store : X509Store) (cert : Cert) (now : Nat) :
    Except String Unit :=
  if now < cert.notBefore then .error "certificate is not yet valid"
  else if cert.notAfter < now then .error "certificate has expired"
  else if ¬ store.certs.any (fun ca => ca.pubKey = cert.signedByKey) then
    .error "unable to get local issuer certificate"
  else if store.crlCheckFlag ∧
      store.crls.any (fun crl => cert.serial ∈ crl.revokedSerials) then
    .error "certificate revoked"
  else .ok ()

/-- Failure kinds observable from the validator: the three typed
exceptions it raises, plus `opensslError` for an exception of the
underlying library that escapes the validator unwrapped. -/
inductive PyError where
  | invalidSignature (msg : String)
  | invalidCertificate (msg : String)
  | appIdMismatch (msg : String)
  | opensslError (msg : String)
deriving DecidableEq, Repr

/-- Django `settings` as read by the validator module:
`CERTIFICATE_DIGEST`, and `MASTER_CERTIFICATE_CNS` which is read via
`getattr(settings, 'MASTER_CERTIFICATE_CNS', [])`, hence optional. -/
structure Settings where
  certificateDigest : String
  masterCertificateCNs : Option (List String)
deriving DecidableEq, Repr

/-- `CertificateConfiguration.__init__`: captures
`settings.CERTIFICATE_DIGEST`. -/
structure CertificateConfiguration where
  digest : String
deriving DecidableEq, Repr

/-- `CertificateValidator.__init__`: stores the configuration. -/
structure CertificateValidator where
  config : CertificateConfiguration
deriving DecidableEq, Repr

/-- `CertificateValidator._to_cert` (validator.py lines 128-133):
parses the certificate text, wrapping any parser failure into
`InvalidCertificateException` with message "Invalid certificate: <cause>". -/
def to_cert (certificate : CertText) : Except PyError Cert :=
  match load_certificate certificate with
  | .ok c => .ok c
  | .error e => .error (.invalidCertificate ("Invalid certificate" ++ ": " ++ e))

/-- `CertificateValidator.validate_signature` (lines 52-67): parses the
certificate, then inside one `try` block base64-decodes the signature
and verifies it with the configured digest; any exception of that block
is re-raised as `InvalidSignatureException` with message
"Signature is invalid: <cause>". -/
def validate_signature (v : CertificateValidator) (certificate : CertText)
    (signature : SigText) (data : List Nat) : Except PyError Unit := do
  let cert ← to_cert certificate
  match (do
      let s ← b64decode signature
      cryptoVerify cert s data v.config.digest : Except String Unit) with
  | .ok _ => .ok ()
  | .error e => .error (.invalidSignature ("Signature is invalid" ++ ": " ++ e))

/-- Lines 80-83 of `validate_certificate`: `pem.parse` has split the
chain text into blocks; each block is parsed via `_to_cert` and added to
a fresh `X509Store` in order. -/
def chainStore (cas : List CertText) : Except PyError X509Store :=
  cas.foldlM (fun st ca => do
    let c ← to_cert ca
    pure (st.add_cert c)) X509Store.new

/-- Python truthiness of the optional CRL argument (`if crl:`): false
for `None` and for the empty string. -/
def crlIsTruthy : Option CrlText → Bool
  | none => false
  | some .empty => false
  | some _ => true

/-- Lines 87-90 of `validate_certificate`: when the CRL argument is
truthy it is parsed by `load_crl` — whose exception is NOT caught and
escapes as a raw library error — then the `CRL_CHECK` flag is set and
the CRL added; otherwise the store is returned untouched. -/
def applyCrl (store : X509Store) (crl : Option CrlText) :
    Except PyError X509Store :=
  if crlIsTruthy crl then
    match crl with
    | some t =>
      match load_crl t with
      | .ok parsed => .ok ((store.set_flags_crl_check).add_crl parsed)
      | .error e => .error (.opensslError e)
    | none => .ok store
  else .ok store

/-- `CertificateValidator.validate_certificate` (lines 69-98): builds
the store from the chain blocks, parses the leaf certificate, handles
the optional CRL, then runs path validation, wrapping its failure into
`InvalidCertificateException` with message
"Certificate is invalid: <cause>". `now` is the evaluation time of the
underlying path validation. -/
def validate_certificate (v : CertificateValidator) (certificate : CertText)
    (chain : List CertText) (crl : Option CrlText) (now : Nat) :
    Except PyError Unit := do
  let store ← chainStore chain
  let cert ← to_cert certificate
  let store ← applyCrl store crl
  match verify_certificate store cert now with
  | .ok _ => .ok ()
  | .error e => .error (.invalidCertificate ("Certificate is invalid" ++ ": " ++ e))

/-- `CertificateValidator.get_cn` (lines 100-108): parses the
certificate and returns `cert.get_subject().CN` as is. -/
def get_cn (certificate : CertText) : Except PyError String := do
  let cert ← to_cert certificate
  pure cert.subjectCN

/-- `CertificateValidator.validate_app_id` (lines 110-126): extracts
the CN, reads the master allowlist from settings, succeeds when the CN
equals the app id or is on the allowlist, otherwise raises
`CertificateAppIdMismatchException`. -/
def validate_app_id (s : Settings) (certificate : CertText) (app_id : String) :
    Except PyError Unit := do
  let cn ← get_cn certificate
  let master_cns := s.masterCertificateCNs.getD []
  if cn = app_id then pure ()
  else if cn ∈ master_cns then pure ()
  else .error (.appIdMismatch
    ("App id " ++ app_id ++ " does not match cert CN " ++ cn))

/-- Evaluation helper: the store selected by `validate_certificate` when
every chain block and the optional CRL text are well formed. -/
def storeOf (cas : List Cert) (crlB : Option CRL) : X509Store :=
  match crlB with
  | none => ⟨cas, [], false⟩
  | some crl => ⟨cas, [crl], true⟩

lemma chainStore_aux (cas : List Cert) (st : X509Store) :
    List.foldlM (fun st ca => do
      let c ← to_cert ca
      pure (st.add_cert c)) st (cas.map CertText.wellFormed)
      = Except.ok { st with certs := st.certs ++ cas } := by
  induction cas generalizing st with
  | nil =>
    simp only [List.map_nil, List.append_nil]
    rfl
  | cons a l ih =>
    simp only [List.map_cons, List.foldlM]
    have h1 : to_cert (CertText.wellFormed a) = Except.ok a := rfl
    rw [h1]
    show List.foldlM _ (st.add_cert a) (l.map CertText.wellFormed) = _
    rw [ih]
    simp [X509Store.add_cert, List.append_assoc]

lemma chainStore_map_wellFormed (cas : List Cert) :
    chainStore (cas.map CertText.wellFormed) = Except.ok ⟨cas, [], false⟩ := by
  rw [chainStore]
  rw [chainStore_aux]
  rfl

lemma validate_certificate_run (v : CertificateValidator) (c : Cert)
    (cas : List Cert) (crlB : Option CRL) (now : Nat) :
    validate_certificate v (CertText.wellFormed c) (cas.map CertText.wellFormed)
      (crlB.map CrlText.wellFormed) now
      = match verify_certificate (storeOf cas crlB) c now with
        | .ok _ => Except.ok ()
        | .error e =>
          Except.error (.invalidCertificate ("Certificate is invalid" ++ ": " ++ e)) := by
  rw [validate_certificate]
  rw [chainStore_map_wellFormed]
  cases crlB <;> rfl

lemma verify_certificate_ok_inv (st : X509Store) (c : Cert) (now : Nat)
    (h : verify_certificate st c now = Except.ok ()) :
    c.notBefore ≤ now ∧ now ≤ c.notAfter ∧
    (st.certs.any fun ca => ca.pubKey = c.signedByKey) = true ∧
    ¬ (st.crlCheckFlag = true ∧
      (st.crls.any fun crl => c.serial ∈ crl.revokedSerials) = true) := by
  rw [verify_certificate] at h
  split_ifs at h with h1 h2 h3 h4
  exact ⟨Nat.le_of_not_lt h1, Nat.le_of_not_lt h2, by simpa using h3, by simpa using h4⟩

lemma validate_signature_run (v : CertificateValidator) (c : Cert)
    (bs : List Nat) (d : List Nat) :
    validate_signature v (CertText.wellFormed c) (SigText.wellFormed bs) d
      = if bs = signBytes c.pubKey v.config.digest d then Except.ok ()
        else Except.error
          (.invalidSignature ("Signature is invalid" ++ ": " ++ "bad signature")) := by
  show (match (cryptoVerify c bs d v.config.digest : Except String Unit) with
    | Except.ok _ => (Except.ok () : Except PyError Unit)
    | Except.error e =>
      Except.error (.invalidSignature ("Signature is invalid" ++ ": " ++ e))) = _
  rw [cryptoVerify]
  by_cases hb : bs = signBytes c.pubKey v.config.digest d
  · simp [hb]
  · simp [hb]

lemma validate_signature_run_badb64 (v : CertificateValidator) (c : Cert)
    (e : String) (d : List Nat) :
    validate_signature v (CertText.wellFormed c) (SigText.malformed e) d
      = Except.error (.invalidSignature ("Signature is invalid" ++ ": " ++ e)) := rfl

/-- C7: for every well-formed certificate, `get_cn` returns the subject
Common Name verbatim, exactly as encoded in the certificate, with no
normalization and no trimming of a leading path-like separator. -/
theorem get_cn_verbatim (t : CertText) (c : Cert)
    (h : load_certificate t = Except.ok c) :
    get_cn t = Except.ok c.subjectCN := by
  cases t with
  | wellFormed c0 =>
    obtain rfl : c0 = c := by simpa [load_certificate] using h
    rfl
  | malformed e => simp [load_certificate] at h

/-- Witness for C7 at a certificate whose encoded CN starts with a
path-like separator: the leading slash is not trimmed. -/
theorem get_cn_verbatim_witness :
    get_cn (CertText.wellFormed ⟨"/news", 1, 0, 10, 5, 5⟩) = Except.ok "/news" :=
  get_cn_verbatim (CertText.wellFormed ⟨"/news", 1, 0, 10, 5, 5⟩)
    ⟨"/news", 1, 0, 10, 5, 5⟩ rfl

/-- C8: whenever the external parser rejects the certificate text with
cause `e`, `_to_cert` — and with it every operation that parses a
certificate — fails with `InvalidCertificate` carrying the diagnostic
"Invalid certificate: <cause>" rather than an unhandled fault. -/
theorem to_cert_invalid_certificate (v : CertificateValidator) (s : Settings)
    (t : CertText) (e : String) (sig : SigText) (d : List Nat) (app_id : String)
    (now : Nat) (h : load_certificate t = Except.error e) :
    to_cert t
      = Except.error (.invalidCertificate ("Invalid certificate" ++ ": " ++ e)) ∧
    get_cn t
      = Except.error (.invalidCertificate ("Invalid certificate" ++ ": " ++ e)) ∧
    validate_signature v t sig d
      = Except.error (.invalidCertificate ("Invalid certificate" ++ ": " ++ e)) ∧
    validate_app_id s t app_id
      = Except.error (.invalidCertificate ("Invalid certificate" ++ ": " ++ e)) ∧
    validate_certificate v t [] none now
      = Except.error (.invalidCertificate ("Invalid certificate" ++ ": " ++ e)) := by
  cases t with
  | malformed e0 =>
    obtain rfl : e0 = e := by simpa [load_certificate] using h
    exact ⟨rfl, rfl, rfl, rfl, rfl⟩
  | wellFormed c => simp [load_certificate] at h

/-- Witness for C8 at a concrete non-PEM input. -/
theorem to_cert_invalid_certificate_witness :
    to_cert (CertText.malformed "no start line")
      = Except.error
        (.invalidCertificate ("Invalid certificate" ++ ": " ++ "no start line")) :=
  (to_cert_invalid_certificate ⟨⟨"sha256"⟩⟩ ⟨"sha256", none⟩
    (CertText.malformed "no start line") "no start line"
    (SigText.wellFormed []) [] "news" 0 rfl).1

/-- C1: `validate_app_id` succeeds exactly when the extracted subject CN
equals the expected app id (byte-exact) or belongs to the configured
master-CN allowlist; in every other case it fails with
`CertificateAppIdMismatchException` carrying exactly the message
"App id <app_id> does not match cert CN <cn>". -/
theorem validate_app_id_iff (s : Settings) (t : CertText) (c : Cert)
    (app_id : String) (h : load_certificate t = Except.ok c) :
    (validate_app_id s t app_id = Except.ok () ↔
      (c.subjectCN = app_id ∨ c.subjectCN ∈ s.masterCertificateCNs.getD [])) ∧
    (¬ (c.subjectCN = app_id ∨ c.subjectCN ∈ s.masterCertificateCNs.getD []) →
      validate_app_id s t app_id = Except.error (.appIdMismatch
        ("App id " ++ app_id ++ " does not match cert CN " ++ c.subjectCN))) := by
  cases t with
  | malformed e => simp [load_certificate] at h
  | wellFormed c0 =>
    obtain rfl : c0 = c := by simpa [load_certificate] using h
    have hrun : validate_app_id s (CertText.wellFormed c0) app_id =
        (if c0.subjectCN = app_id then Except.ok ()
         else if c0.subjectCN ∈ s.masterCertificateCNs.getD [] then Except.ok ()
         else Except.error (.appIdMismatch
          ("App id " ++ app_id ++ " does not match cert CN " ++ c0.subjectCN))) := rfl
    rw [hrun]
    by_cases h1 : c0.subjectCN = app_id
    · simp [h1]
    · by_cases h2 : c0.subjectCN ∈ s.masterCertificateCNs.getD []
      · simp [h1, h2]
      · simp [h1, h2]

/-- Witness for C1: an allowlisted CN may publish under any app id,
while a non-matching, non-allowlisted CN is rejected with the exact
mismatch message. -/
theorem validate_app_id_iff_witness :
    validate_app_id ⟨"sha256", some ["master"]⟩
      (CertText.wellFormed ⟨"master", 1, 0, 10, 5, 5⟩) "anything" = Except.ok () ∧
    validate_app_id ⟨"sha256", some ["master"]⟩
      (CertText.wellFormed ⟨"news", 1, 0, 10, 5, 5⟩) "other"
      = Except.error (.appIdMismatch "App id other does not match cert CN news") := by
  constructor
  · exact (validate_app_id_iff ⟨"sha256", some ["master"]⟩
      (CertText.wellFormed ⟨"master", 1, 0, 10, 5, 5⟩)
      ⟨"master", 1, 0, 10, 5, 5⟩ "anything" rfl).1.mpr (by decide)
  · have h := (validate_app_id_iff ⟨"sha256", some ["master"]⟩
      (CertText.wellFormed ⟨"news", 1, 0, 10, 5, 5⟩)
      ⟨"news", 1, 0, 10, 5, 5⟩ "other" rfl).2 (by decide)
    simpa using h

/-- C5: `validate_signature` performs no trust or validity-period check:
whenever the decoded signature is the one the certificate's public key
verifies over the data under the configured digest, the call succeeds,
and its outcome is unchanged between any two certificates sharing the
same public key — it never depends on chain or expiry state. -/
theorem validate_signature_ignores_trust (v : CertificateValidator)
    (t : CertText) (c : Cert) (s : SigText) (d : List Nat)
    (h : load_certificate t = Except.ok c) :
    (∀ bs, b64decode s = Except.ok bs →
      bs = signBytes c.pubKey v.config.digest d →
      validate_signature v t s d = Except.ok ()) ∧
    (∀ (t2 : CertText) (c2 : Cert), load_certificate t2 = Except.ok c2 →
      c2.pubKey = c.pubKey →
      validate_signature v t2 s d = validate_signature v t s d) := by
  cases t with
  | malformed e => simp [load_certificate] at h
  | wellFormed c0 =>
    obtain rfl : c0 = c := by simpa [load_certificate] using h
    constructor
    · intro bs hdec hsig
      cases s with
      | malformed e => simp [b64decode] at hdec
      | wellFormed bs0 =>
        obtain rfl : bs0 = bs := by simpa [b64decode] using hdec
        rw [validate_signature_run]
        simp [hsig]
    · intro t2 c2 h2 hpk
      cases t2 with
      | malformed e => simp [load_certificate] at h2
      | wellFormed c3 =>
        obtain rfl : c3 = c2 := by simpa [load_certificate] using h2
        cases s with
        | wellFormed bs =>
          rw [validate_signature_run, validate_signature_run, hpk]
        | malformed e =>
          rw [validate_signature_run_badb64, validate_signature_run_badb64]

/-- Witness for C5: the signature verifies against a certificate that is
expired at any time past 10 and whose signing key 99 chains to no
anchor; `validate_signature` still succeeds. -/
theorem validate_signature_ignores_trust_witness :
    validate_signature ⟨⟨"sha256"⟩⟩ (CertText.wellFormed ⟨"news", 1, 0, 10, 99, 7⟩)
      (SigText.wellFormed (signBytes 7 "sha256" [1, 2, 3])) [1, 2, 3]
      = Except.ok () :=
  (validate_signature_ignores_trust ⟨⟨"sha256"⟩⟩
    (CertText.wellFormed ⟨"news", 1, 0, 10, 99, 7⟩) ⟨"news", 1, 0, 10, 99, 7⟩
    (SigText.wellFormed (signBytes 7 "sha256" [1, 2, 3])) [1, 2, 3] rfl).1
    (signBytes 7 "sha256" [1, 2, 3]) rfl rfl

/-- C6: for a well-formed certificate, every failure of the signature
check — a base64 payload that does not decode, or decoded bytes that the
public key does not verify over the data under the configured digest —
is reported uniformly as `InvalidSignatureException` with message
"Signature is invalid: <cause>"; malformed base64 is not a distinct
parse error. -/
theorem validate_signature_uniform_failure (v : CertificateValidator)
    (t : CertText) (c : Cert) (s : SigText) (d : List Nat)
    (h : load_certificate t = Except.ok c) :
    (∀ e, b64decode s = Except.error e →
      validate_signature v t s d
        = Except.error (.invalidSignature ("Signature is invalid" ++ ": " ++ e))) ∧
    (∀ bs e, b64decode s = Except.ok bs →
      cryptoVerify c bs d v.config.digest = Except.error e →
      validate_signature v t s d
        = Except.error (.invalidSignature ("Signature is invalid" ++ ": " ++ e))) := by
  cases t with
  | malformed e => simp [load_certificate] at h
  | wellFormed c0 =>
    obtain rfl : c0 = c := by simpa [load_certificate] using h
    constructor
    · intro e hdec
      cases s with
      | wellFormed bs => simp [b64decode] at hdec
      | malformed e0 =>
        obtain rfl : e0 = e := by simpa [b64decode] using hdec
        exact validate_signature_run_badb64 v c0 e0 d
    · intro bs e hdec hver
      cases s with
      | malformed e0 => simp [b64decode] at hdec
      | wellFormed bs0 =>
        obtain rfl : bs0 = bs := by simpa [b64decode] using hdec
        rw [validate_signature_run]
        rw [cryptoVerify] at hver
        split_ifs at hver with hb
        obtain rfl : "bad signature" = e := by simpa using hver
        simp [hb]

/-- Witness for C6 at a base64 string the decoder rejects: the failure
is the uniform `InvalidSignature` one, with the decoder's cause embedded. -/
theorem validate_signature_uniform_failure_witness :
    validate_signature ⟨⟨"sha256"⟩⟩ (CertText.wellFormed ⟨"news", 1, 0, 10, 5, 7⟩)
      (SigText.malformed "Invalid base64-encoded string") [1, 2, 3]
      = Except.error (.invalidSignature
        ("Signature is invalid" ++ ": " ++ "Invalid base64-encoded string")) :=
  (validate_signature_uniform_failure ⟨⟨"sha256"⟩⟩
    (CertText.wellFormed ⟨"news", 1, 0, 10, 5, 7⟩) ⟨"news", 1, 0, 10, 5, 7⟩
    (SigText.malformed "Invalid base64-encoded string") [1, 2, 3] rfl).1
    "Invalid base64-encoded string" rfl

lemma foldl_add_cert_flag (chain : List CertText) :
    ∀ (st0 st : X509Store),
    List.foldlM (fun st ca => do
      let c ← to_cert ca
      pure (st.add_cert c)) st0 chain = Except.ok st →
    st.crlCheckFlag = st0.crlCheckFlag := by
  induction chain with
  | nil =>
    intro st0 st h
    replace h : (Except.ok st0 : Except PyError X509Store) = Except.ok st := h
    obtain rfl : st0 = st := by simpa using h
    rfl
  | cons a l ih =>
    intro st0 st h
    cases a with
    | wellFormed c =>
      replace h : List.foldlM (fun st ca => do
          let c ← to_cert ca
          pure (st.add_cert c)) (st0.add_cert c) l = Except.ok st := h
      rw [ih (st0.add_cert c) st h]
      rfl
    | malformed e =>
      replace h : (Except.error
          (PyError.invalidCertificate ("Invalid certificate" ++ ": " ++ e))
          : Except PyError X509Store) = Except.ok st := h
      simp at h

lemma chainStore_flag_false (chain : List CertText) (st : X509Store)
    (h : chainStore chain = Except.ok st) : st.crlCheckFlag = false :=
  foldl_add_cert_flag chain X509Store.new st h

/-- C3: whenever path validation of the leaf against the built store
fails, `validate_certificate` fails with the single kind
`InvalidCertificateException` whose message is the underlying cause
prefixed with "Certificate is invalid"; in particular a certificate
whose not-after date is before the evaluation time is always rejected
with that kind. -/
theorem validate_certificate_collapses_failures (v : CertificateValidator)
    (c : Cert) (cas : List Cert) (crlB : Option CRL) (now : Nat) :
    (∀ e, verify_certificate (storeOf cas crlB) c now = Except.error e →
      validate_certificate v (CertText.wellFormed c) (cas.map CertText.wellFormed)
        (crlB.map CrlText.wellFormed) now
        = Except.error (.invalidCertificate ("Certificate is invalid" ++ ": " ++ e))) ∧
    (c.notAfter < now →
      ∃ m, validate_certificate v (CertText.wellFormed c) (cas.map CertText.wellFormed)
        (crlB.map CrlText.wellFormed) now
        = Except.error (.invalidCertificate ("Certificate is invalid" ++ ": " ++ m))) := by
  constructor
  · intro e he
    rw [validate_certificate_run, he]
  · intro hexp
    by_cases hnb : now < c.notBefore
    · refine ⟨"certificate is not yet valid", ?_⟩
      rw [validate_certificate_run, verify_certificate]
      simp [hnb]
    · refine ⟨"certificate has expired", ?_⟩
      rw [validate_certificate_run, verify_certificate]
      simp [hnb, hexp]

/-- Witness for C3 at a concrete certificate whose not-after date 10 is
past at evaluation time 100. -/
theorem validate_certificate_collapses_failures_witness :
    validate_certificate ⟨⟨"sha256"⟩⟩ (CertText.wellFormed ⟨"news", 1, 0, 10, 5, 5⟩)
      [] none 100
      = Except.error (.invalidCertificate
        ("Certificate is invalid" ++ ": " ++ "certificate has expired")) :=
  (validate_certificate_collapses_failures ⟨⟨"sha256"⟩⟩ ⟨"news", 1, 0, 10, 5, 5⟩
    [] none 100).1 "certificate has expired" rfl

/-- C4: revocation checking is opt-in per call — a certificate whose
serial number appears in the supplied CRL is rejected, while the very
same call without a CRL argument runs no revocation check and succeeds
when the chain is otherwise valid, and an absent CRL argument leaves the
store's revocation-enforcement flag unset. -/
theorem validate_certificate_revocation_opt_in (v : CertificateValidator)
    (c : Cert) (cas : List Cert) (crl : CRL) (now : Nat) :
    (c.serial ∈ crl.revokedSerials →
      ∃ m, validate_certificate v (CertText.wellFormed c) (cas.map CertText.wellFormed)
        (some (CrlText.wellFormed crl)) now
        = Except.error (.invalidCertificate m)) ∧
    (c.notBefore ≤ now → now ≤ c.notAfter →
      (cas.any fun ca => ca.pubKey = c.signedByKey) = true →
      validate_certificate v (CertText.wellFormed c) (cas.map CertText.wellFormed)
        none now = Except.ok ()) ∧
    (∀ (chain : List CertText) (st : X509Store), chainStore chain = Except.ok st →
      st.crlCheckFlag = false ∧ applyCrl st none = Except.ok st) := by
  refine ⟨?_, ?_, ?_⟩
  · intro hmem
    have hrun : validate_certificate v (CertText.wellFormed c)
        (cas.map CertText.wellFormed) (some (CrlText.wellFormed crl)) now
        = match verify_certificate (storeOf cas (some crl)) c now with
          | .ok _ => Except.ok ()
          | .error e =>
            Except.error (.invalidCertificate ("Certificate is invalid" ++ ": " ++ e)) :=
      validate_certificate_run v c cas (some crl) now
    cases hv : verify_certificate (storeOf cas (some crl)) c now with
    | error e =>
      rw [hv] at hrun
      exact ⟨"Certificate is invalid" ++ ": " ++ e, hrun⟩
    | ok u =>
      exfalso
      cases u
      obtain ⟨-, -, -, hflag⟩ := verify_certificate_ok_inv _ _ _ hv
      exact hflag ⟨rfl, by simpa [storeOf] using hmem⟩
  · intro h1 h2 hanchor
    have hrun : validate_certificate v (CertText.wellFormed c)
        (cas.map CertText.wellFormed) none now
        = match verify_certificate (storeOf cas none) c now with
          | .ok _ => Except.ok ()
          | .error e =>
            Except.error (.invalidCertificate ("Certificate is invalid" ++ ": " ++ e)) :=
      validate_certificate_run v c cas none now
    rw [hrun, verify_certificate]
    simp [storeOf, Nat.not_lt.mpr h1, Nat.not_lt.mpr h2, hanchor]
  · intro chain st hst
    exact ⟨chainStore_flag_false chain st hst, rfl⟩

/-- Witness for C4: serial 1 appears in the CRL and the call with that
CRL is rejected, while the identical call without the CRL succeeds. -/
theorem validate_certificate_revocation_opt_in_witness :
    (∃ m, validate_certificate ⟨⟨"sha256"⟩⟩
      (CertText.wellFormed ⟨"news", 1, 0, 10, 5, 5⟩)
      [CertText.wellFormed ⟨"root", 2, 0, 10, 5, 5⟩]
      (some (CrlText.wellFormed ⟨[1]⟩)) 5
      = Except.error (.invalidCertificate m)) ∧
    validate_certificate ⟨⟨"sha256"⟩⟩
      (CertText.wellFormed ⟨"news", 1, 0, 10, 5, 5⟩)
      [CertText.wellFormed ⟨"root", 2, 0, 10, 5, 5⟩] none 5 = Except.ok () := by
  have h := validate_certificate_revocation_opt_in ⟨⟨"sha256"⟩⟩
    ⟨"news", 1, 0, 10, 5, 5⟩ [⟨"root", 2, 0, 10, 5, 5⟩] ⟨[1]⟩ 5
  exact ⟨h.1 (by decide), h.2.1 (by decide) (by decide) (by decide)⟩

/-- Counterexample to C2: with a parsable leaf, an empty chain and a
non-empty unparsable CRL text, `validate_certificate` does fail, but
with the raw library fault of `load_crl` — lines 87-90 sit outside the
`try` block — and not with the `InvalidCertificate` kind the claim
requires. -/
theorem crl_untyped_fault_cex :
    validate_certificate ⟨⟨"sha256"⟩⟩ (CertText.wellFormed ⟨"news", 1, 0, 10, 5, 5⟩)
      [] (some (CrlText.malformed "unable to load CRL")) 5
      = Except.error (.opensslError "unable to load CRL") ∧
    ∀ m, validate_certificate ⟨⟨"sha256"⟩⟩
      (CertText.wellFormed ⟨"news", 1, 0, 10, 5, 5⟩)
      [] (some (CrlText.malformed "unable to load CRL")) 5
      ≠ Except.error (.invalidCertificate m) := by
  constructor
  · rfl
  · intro m hm
    replace hm : (Except.error (PyError.opensslError "unable to load CRL")
        : Except PyError Unit) = Except.error (.invalidCertificate m) := hm
    simp at hm

/-- C2 as amended: when the chain blocks and the leaf certificate parse
and a non-empty CRL text is supplied that the CRL parser rejects with
cause `e`, `validate_certificate` fails with the untyped library fault
carrying `e` — the `load_crl` exception escapes unwrapped instead of
being converted to `InvalidCertificate`. -/
theorem crl_untyped_fault (v : CertificateValidator) (c : Cert)
    (cas : List Cert) (t : CrlText) (e : String) (now : Nat)
    (h1 : t ≠ CrlText.empty) (h2 : load_crl t = Except.error e) :
    validate_certificate v (CertText.wellFormed c) (cas.map CertText.wellFormed)
      (some t) now = Except.error (.opensslError e) := by
  rw [validate_certificate, chainStore_map_wellFormed]
  cases t with
  | empty => exact absurd rfl h1
  | wellFormed crl => simp [load_crl] at h2
  | malformed e0 =>
    obtain rfl : e0 = e := by simpa [load_crl] using h2
    rfl

/-- Witness for the amended C2 at a concrete unparsable CRL text. -/
theorem crl_untyped_fault_witness :
    validate_certificate ⟨⟨"sha256"⟩⟩ (CertText.wellFormed ⟨"news", 1, 0, 10, 5, 5⟩)
      [] (some (CrlText.malformed "wrong tag")) 5
      = Except.error (.opensslError "wrong tag") :=
  crl_untyped_fault ⟨⟨"sha256"⟩⟩ ⟨"news", 1, 0, 10, 5, 5⟩ []
    (CrlText.malformed "wrong tag") "wrong tag" 5 (by decide) rfl

/-- C9: a chain text splitting into zero PEM blocks builds an empty
store without error, and the condition only surfaces at validation
time, where `validate_certificate` rejects every (parsable) leaf with
`InvalidCertificate`. -/
theorem empty_chain_defers (v : CertificateValidator) :
    chainStore [] = Except.ok X509Store.new ∧
    ∀ (c : Cert) (now : Nat), ∃ m,
      validate_certificate v (CertText.wellFormed c) [] none now
        = Except.error (.invalidCertificate m) := by
  refine ⟨rfl, ?_⟩
  intro c now
  have hrun : validate_certificate v (CertText.wellFormed c) [] none now
      = match verify_certificate (storeOf [] none) c now with
        | .ok _ => Except.ok ()
        | .error e =>
          Except.error (.invalidCertificate ("Certificate is invalid" ++ ": " ++ e)) :=
    validate_certificate_run v c [] none now
  cases hv : verify_certificate (storeOf [] none) c now with
  | error e =>
    rw [hv] at hrun
    exact ⟨"Certificate is invalid" ++ ": " ++ e, hrun⟩
  | ok u =>
    exfalso
    cases u
    obtain ⟨-, -, hany, -⟩ := verify_certificate_ok_inv _ _ _ hv
    simp [storeOf] at hany

/-- C10: an empty string supplied as the CRL argument is treated exactly
like an absent CRL — Python's `if crl:` is false on it, so it is never
parsed, no revocation-enforcement flag is set, and the whole call
behaves identically to the call with no CRL. -/
theorem empty_crl_string_like_none (v : CertificateValidator)
    (certificate : CertText) (chain : List CertText) (now : Nat) :
    validate_certificate v certificate chain (some CrlText.empty) now
      = validate_certificate v certificate chain none now ∧
    ∀ st : X509Store, applyCrl st (some CrlText.empty) = Except.ok st :=
  ⟨rfl, fun _ => rfl⟩
